import Mathlib

/-!
Verification development for the wind-turbine HMI intrusion-detection monitor
(`Wind_HMI_IDS.py`).  The definitions below are a shallow embedding of the
core of that program: the status-bitfield decoder in `parse_xml`, and the
regime tracking plus rule evaluation in `check_data`.  Python floats are
modelled as rationals; the mutable fields `sec_powered`, `sec_idle` and
`last_check_time` of the `IDS` object are gathered in an explicit
`RegimeState`; the `self.data` dictionary is a record of optional fields, a
missing mandatory key raising `KeyError` being modelled as `Except.error`.
-/

namespace WindIDS

/-! ## Constants (the threshold attributes set in `IDS.__init__`) -/

def temp_gearbox_bearing_max : ℚ := 60
def v_rated : ℚ := 11
def v_cut_in : ℚ := 3.5
def v_cut_out : ℚ := 25
def p_rated : ℚ := 1500
def torque_rated : ℚ := 11
def w_max_rated : ℚ := 18.39
def blade_angle_tol : ℚ := 5
def p_tol : ℚ := 100
def torque_tol : ℚ := 1
def w_tol : ℚ := 1

/-! ## Status bitfield decoding (`parse_xml`, the `OpCtl_TurbineStatus` branch) -/

/-- The bit-to-name cascade of `parse_xml`: one membership test per bit of the
turbine status bitfield, appending the condition name when the bit is set. -/
def decodeStatus (bitfield : Nat) : List String :=
  (if bitfield &&& (1 <<< 0) == 1 <<< 0 then ["Turbine OK"] else []) ++
  (if bitfield &&& (1 <<< 1) == 1 <<< 1 then ["Turbine with Grid Connection"] else []) ++
  (if bitfield &&& (1 <<< 2) == 1 <<< 2 then ["Run Up / Idling"] else []) ++
  (if bitfield &&& (1 <<< 3) == 1 <<< 3 then ["Maintenance"] else []) ++
  (if bitfield &&& (1 <<< 4) == 1 <<< 4 then ["Repair"] else []) ++
  (if bitfield &&& (1 <<< 5) == 1 <<< 5 then ["Grid loss"] else []) ++
  (if bitfield &&& (1 <<< 6) == 1 <<< 6 then ["Weather conditions"] else []) ++
  (if bitfield &&& (1 <<< 7) == 1 <<< 7 then ["Stop extern"] else []) ++
  (if bitfield &&& (1 <<< 8) == 1 <<< 8 then ["Stopped (manual Stop, if turbine ok)"] else []) ++
  (if bitfield &&& (1 <<< 9) == 1 <<< 9 then ["Stopped (remote Stop, if turbine ok)"] else []) ++
  (if bitfield &&& (1 <<< 10) == 1 <<< 10 then ["Emergency STOP"] else []) ++
  (if bitfield &&& (1 <<< 11) == 1 <<< 11 then ["External Stop regarding Energy Curtailment"] else []) ++
  (if bitfield &&& (1 <<< 12) == 1 <<< 12 then ["Customer Stop"] else []) ++
  (if bitfield &&& (1 <<< 13) == 1 <<< 13 then ["Manual Idle Stop"] else []) ++
  (if bitfield &&& (1 <<< 14) == 1 <<< 14 then ["Remote Idle Stop"] else []) ++
  (if bitfield &&& (1 <<< 15) == 1 <<< 15 then ["Wind Direction Curtailment"] else [])

/-- The bit-index-to-name table of the status decoder, exactly the strings the
source appends for bits 0 through 15. -/
def statusBitNames : List (Nat × String) :=
  [(0, "Turbine OK"), (1, "Turbine with Grid Connection"), (2, "Run Up / Idling"),
   (3, "Maintenance"), (4, "Repair"), (5, "Grid loss"),
   (6, "Weather conditions"), (7, "Stop extern"),
   (8, "Stopped (manual Stop, if turbine ok)"), (9, "Stopped (remote Stop, if turbine ok)"),
   (10, "Emergency STOP"), (11, "External Stop regarding Energy Curtailment"),
   (12, "Customer Stop"), (13, "Manual Idle Stop"), (14, "Remote Idle Stop"),
   (15, "Wind Direction Curtailment")]

/-! ## Regime state and its update (`check_data`, lines 327-341) -/

/-- The mutable duration counters and timestamp of the `IDS` object:
`sec_powered`, `sec_idle`, `last_check_time`. -/
structure RegimeState where
  secPowered : ℚ
  secIdle : ℚ
  lastCheckTime : ℚ
  deriving DecidableEq, Repr

/-- One regime-counter update of `check_data`: powered when
`p > 0 + p_tol`, accumulating one counter and zeroing the other. -/
def updateRegime (p elapsed : ℚ) (s : RegimeState) : RegimeState :=
  if 0 + p_tol < p then
    { s with secPowered := s.secPowered + elapsed, secIdle := 0 }
  else
    { s with secIdle := s.secIdle + elapsed, secPowered := 0 }

/-! ## Alerts

The source emits alert strings built with a format template plus the offending
values; each template is used at exactly one program point, so an alert is
modelled as a constructor carrying the values interpolated into the string. -/

/-- One alert message of `check_data`, one constructor per `alerts.append`
site, carrying the values the format string interpolates. -/
inductive Alert where
  | pitchModeWarning (mode : Int)
  | idlePitchMismatch (status : List String) (p1 p2 p3 : ℚ)
  | highGearboxTemp (t : ℚ)
  | rotorOverspeed (w p : ℚ)
  | falsifiedData (w p : ℚ)
  | brakeFailure (w p : ℚ)
  | aboveCutOut (v : ℚ)
  | pitchMismatchRated (v p1 p2 p3 : ℚ)
  | powerShouldBeHigher (v p : ℚ)
  | torqueShouldBeHigher (v tq : ℚ)
  | belowCutIn (v : ℚ)
  | pitchesStrangeNormal (v p1 p2 p3 : ℚ) (status : List String) (p runTime : ℚ)
  | powerMismatch (v p : ℚ)
  | torqueMismatch (tq p : ℚ)
  | pitchImbalance (p1 p2 p3 : ℚ)
  deriving DecidableEq, Repr

/-! ## The individual rule blocks of `check_data` -/

/-- Pitch-mode warning (lines 348-354): mode nonzero. -/
def pitchModeAlerts (pm : Int) : List Alert :=
  if pm ≠ 0 then [Alert.pitchModeWarning pm] else []

/-- Idle-blade-pitch mismatch (lines 373-380). -/
def idleBladeAlerts (status : List String) (p1 p2 p3 sec : ℚ) : List Alert :=
  if "Run Up / Idling" ∉ status ∧
      (80 - blade_angle_tol < p1 ∨ 80 - blade_angle_tol < p2 ∨ 80 - blade_angle_tol < p3) ∧
      120 < sec then
    [Alert.idlePitchMismatch status p1 p2 p3]
  else []

/-- Gearbox over-temperature (lines 383-388); the field is optional. -/
def gearboxAlerts (gb : Option ℚ) : List Alert :=
  match gb with
  | none => []
  | some t => if temp_gearbox_bearing_max < t then [Alert.highGearboxTemp t] else []

/-- Rotor overspeed (lines 391-396). -/
def overspeedAlerts (w p : ℚ) : List Alert :=
  if w_max_rated + w_tol < w then [Alert.rotorOverspeed w p] else []

/-- The flag `turbine_ok` as computed on lines 356-366: false when neither
running status is present, but forced back to true when Emergency STOP is. -/
def turbineOkFlag (status : List String) : Bool :=
  if "Emergency STOP" ∈ status then true
  else if "Turbine OK" ∉ status ∧ "Turbine with Grid Connection" ∉ status then false
  else true

/-- The flag `turbine_e_stop`: the source initialises it to `False` on line
362 and never assigns it again, so it is constantly false. -/
def turbineEStopFlag (_ : List String) : Bool := false

/-- The guard of the operational-alert block (line 402):
`(turbine_ok or len(status) == 0) and not turbine_e_stop`. -/
def opGate (status : List String) : Bool :=
  (turbineOkFlag status || status.isEmpty) && !(turbineEStopFlag status)

/-- Falsified-data and brake-failure checks (lines 406-422). -/
def falsifiedBrakeAlerts (w p sec : ℚ) : List Alert :=
  (if torque_rated - torque_tol < w ∧ p_tol < p ∧ 60 < sec then
      [Alert.falsifiedData w p] else []) ++
  (if torque_rated + torque_tol < w ∧ p_tol < p ∧ 60 < sec then
      [Alert.brakeFailure w p] else [])

/-- The wind-speed ladder (lines 424-484): an if/elif chain on the wind
speed, first match wins. -/
def windLadderAlerts (v p p1 p2 p3 tq sec : ℚ) (status : List String) : List Alert :=
  if v_cut_out ≤ v ∧ 60 < sec then
    [Alert.aboveCutOut v]
  else if v_rated ≤ v ∧ 60 < sec then
    (if 0 - blade_angle_tol < p1 ∨ p2 < 0 - blade_angle_tol ∨ p3 < 0 - blade_angle_tol then
        [Alert.pitchMismatchRated v p1 p2 p3] else []) ++
    (if p < p_rated - p_tol then [Alert.powerShouldBeHigher v p] else []) ++
    (if tq < torque_rated - torque_tol then [Alert.torqueShouldBeHigher v tq] else [])
  else if v < v_cut_in then
    (if 0 + p_tol < p then [Alert.belowCutIn v] else [])
  else if v < v_rated then
    (if 30 < sec ∧
        (blade_angle_tol < p1 ∨ blade_angle_tol < p2 ∨ blade_angle_tol < p3 ∨
         p1 < -blade_angle_tol ∨ p2 < -blade_angle_tol ∨ p3 < -blade_angle_tol) then
        [Alert.pitchesStrangeNormal v p1 p2 p3 status p sec] else []) ++
    (if p_rated < p ∧ 60 < sec then [Alert.powerMismatch v p] else []) ++
    (if torque_rated < tq ∧ 60 < sec then [Alert.torqueMismatch tq p] else [])
  else []

/-- Blade-pitch imbalance (lines 489-496). -/
def imbalanceAlerts (p1 p2 p3 sec : ℚ) : List Alert :=
  if (5 < |p1 - p2| ∨ 5 < |p1 - p3| ∨ 5 < |p2 - p3|) ∧ 60 < sec then
    [Alert.pitchImbalance p1 p2 p3]
  else []

/-- The full rule evaluation of `check_data` after the counters were
updated: warnings, global alerts, then the gated operational block,
in source order. -/
def evalRules (w p v p1 p2 p3 tq : ℚ) (gb : Option ℚ) (pm : Int)
    (status : List String) (sec : ℚ) : List Alert :=
  pitchModeAlerts pm ++
  idleBladeAlerts status p1 p2 p3 sec ++
  gearboxAlerts gb ++
  overspeedAlerts w p ++
  (if opGate status then
      falsifiedBrakeAlerts w p sec ++
      windLadderAlerts v p p1 p2 p3 tq sec status ++
      imbalanceAlerts p1 p2 p3 sec
    else [])

/-! ## The data dictionary and `check_data` itself -/

/-- The subset of `self.data` that `check_data` reads.  Every field is
optional at this level because the dictionary may lack the key; mandatory
fields are the ones read with `self.data[...]` (a `KeyError` when absent),
while the gearbox temperature is read with `.get` and the status list with a
plain lookup. -/
structure TurbineData where
  rotorSpeed : Option ℚ
  activePower : Option ℚ
  reactivePower : Option ℚ
  windSpeed : Option ℚ
  bladePitch1 : Option ℚ
  bladePitch2 : Option ℚ
  bladePitch3 : Option ℚ
  torque : Option ℚ
  gearboxTemp : Option ℚ
  pitchMode : Option Int
  turbineStatus : Option (List String)
  deriving DecidableEq, Repr

/-- The block of mandatory `self.data[...]` lookups on lines 315-324; any
absent key raises `KeyError` there, before the regime counters are touched. -/
def getMandatory (d : TurbineData) :
    Option (ℚ × ℚ × ℚ × ℚ × ℚ × ℚ × ℚ × ℚ × List String) :=
  match d.rotorSpeed, d.activePower, d.reactivePower, d.windSpeed,
      d.bladePitch1, d.bladePitch2, d.bladePitch3, d.torque, d.turbineStatus with
  | some w, some p, some q, some v, some a, some b, some c, some tq, some st =>
      some (w, p, q, v, a, b, c, tq, st)
  | _, _, _, _, _, _, _, _, _ => none

/-- `check_data`: advances `last_check_time` first, then performs the
mandatory lookups, then updates the regime counters (fixed 1-second step when
offline, elapsed wall-clock time otherwise), then reads the pitch mode (a
`KeyError` when absent, after the counters were already updated), and finally
evaluates the rules.  The returned state is the state of the `IDS` object
when the call returns or raises. -/
def checkData (offline : Bool) (now : ℚ) (d : TurbineData) (s0 : RegimeState) :
    RegimeState × Except Unit (List Alert) :=
  let checkPeriod := now - s0.lastCheckTime
  let s1 : RegimeState := { s0 with lastCheckTime := now }
  match getMandatory d with
  | none => (s1, Except.error ())
  | some (w, p, _q, v, a, b, c, tq, status) =>
    let elapsed : ℚ := if offline then 1 else checkPeriod
    let s2 := updateRegime p elapsed s1
    match d.pitchMode with
    | none => (s2, Except.error ())
    | some pm =>
        (s2, Except.ok (evalRules w p v a b c tq d.gearboxTemp pm status s2.secPowered))

/-! ## Wind-speed bands (claim-side classification) -/

/-- The four bands of the wind-speed ladder. -/
inductive WindBand where
  | cutOut
  | rated
  | cutIn
  | normal
  deriving DecidableEq, Repr

/-- The band an alert belongs to, when it is one of the ladder alerts. -/
def alertBand : Alert → Option WindBand
  | Alert.aboveCutOut _ => some WindBand.cutOut
  | Alert.pitchMismatchRated _ _ _ _ => some WindBand.rated
  | Alert.powerShouldBeHigher _ _ => some WindBand.rated
  | Alert.torqueShouldBeHigher _ _ => some WindBand.rated
  | Alert.belowCutIn _ => some WindBand.cutIn
  | Alert.pitchesStrangeNormal _ _ _ _ _ _ _ => some WindBand.normal
  | Alert.powerMismatch _ _ => some WindBand.normal
  | Alert.torqueMismatch _ _ => some WindBand.normal
  | _ => none

/-- The first-match band order stated by the spec: cut-out at `v ≥ 25`, then
rated at `v ≥ 11`, then cut-in at `v < 3.5`, then the normal band. -/
def specFirstBand (v : ℚ) : WindBand :=
  if 25 ≤ v then WindBand.cutOut
  else if 11 ≤ v then WindBand.rated
  else if v < 3.5 then WindBand.cutIn
  else WindBand.normal

/-- Whether an alert is the gearbox over-temperature alert. -/
def isGearboxAlert : Alert → Bool
  | Alert.highGearboxTemp _ => true
  | _ => false

/-! ## Concrete sample data used in counterexamples and witnesses -/

/-- A complete snapshot with high rotor speed and power, in Emergency STOP. -/
def dEStop : TurbineData :=
  ⟨some 15, some 200, some 0, some 7, some 0, some 0, some 0, some 5, none,
   some 0, some ["Emergency STOP"]⟩

/-- The same snapshot with a plain Turbine OK status. -/
def dOk : TurbineData :=
  ⟨some 15, some 200, some 0, some 7, some 0, some 0, some 0, some 5, none,
   some 0, some ["Turbine OK"]⟩

/-- The Turbine OK snapshot with the pitch-mode key absent. -/
def dNoPitchMode : TurbineData :=
  ⟨some 15, some 200, some 0, some 7, some 0, some 0, some 0, some 5, none,
   none, some ["Turbine OK"]⟩

/-- A data dictionary with every key absent. -/
def dEmpty : TurbineData :=
  ⟨none, none, none, none, none, none, none, none, none, none, none⟩

/-- The mutual-exclusion and nonnegativity invariant of the duration
counters: a positive counter forces the other to zero. -/
def RegimeInv (s : RegimeState) : Prop :=
  0 ≤ s.secPowered ∧ 0 ≤ s.secIdle ∧
  (0 < s.secPowered → s.secIdle = 0) ∧ (0 < s.secIdle → s.secPowered = 0)

/-! ## Membership characterisations of the rule blocks -/

theorem mem_ite_single {α : Type _} {c : Prop} [Decidable c] {x y : α} :
    (x ∈ if c then [y] else ([] : List α)) ↔ c ∧ x = y := by
  split <;> simp_all

theorem mem_ite_list {α : Type _} {c : Prop} [Decidable c] {x : α} {l : List α} :
    (x ∈ if c then l else ([] : List α)) ↔ c ∧ x ∈ l := by
  split <;> simp_all

theorem mem_pitchModeAlerts {x : Alert} {pm : Int} :
    x ∈ pitchModeAlerts pm ↔ pm ≠ 0 ∧ x = Alert.pitchModeWarning pm := by
  simp [pitchModeAlerts, mem_ite_single]

theorem mem_idleBladeAlerts {x : Alert} {status : List String} {p1 p2 p3 sec : ℚ} :
    x ∈ idleBladeAlerts status p1 p2 p3 sec ↔
      ("Run Up / Idling" ∉ status ∧
        (80 - blade_angle_tol < p1 ∨ 80 - blade_angle_tol < p2 ∨ 80 - blade_angle_tol < p3) ∧
        120 < sec) ∧ x = Alert.idlePitchMismatch status p1 p2 p3 := by
  simp [idleBladeAlerts, mem_ite_single]

theorem mem_gearboxAlerts {x : Alert} {gb : Option ℚ} :
    x ∈ gearboxAlerts gb ↔
      ∃ t, gb = some t ∧ temp_gearbox_bearing_max < t ∧ x = Alert.highGearboxTemp t := by
  cases gb <;> simp [gearboxAlerts, mem_ite_single, and_assoc]

theorem mem_overspeedAlerts {x : Alert} {w p : ℚ} :
    x ∈ overspeedAlerts w p ↔ (w_max_rated + w_tol < w) ∧ x = Alert.rotorOverspeed w p := by
  simp [overspeedAlerts, mem_ite_single]

theorem mem_falsifiedBrakeAlerts {x : Alert} {w p sec : ℚ} :
    x ∈ falsifiedBrakeAlerts w p sec ↔
      ((torque_rated - torque_tol < w ∧ p_tol < p ∧ 60 < sec) ∧ x = Alert.falsifiedData w p) ∨
      ((torque_rated + torque_tol < w ∧ p_tol < p ∧ 60 < sec) ∧ x = Alert.brakeFailure w p) := by
  simp [falsifiedBrakeAlerts, List.mem_append, mem_ite_single]

theorem mem_imbalanceAlerts {x : Alert} {p1 p2 p3 sec : ℚ} :
    x ∈ imbalanceAlerts p1 p2 p3 sec ↔
      ((5 < |p1 - p2| ∨ 5 < |p1 - p3| ∨ 5 < |p2 - p3|) ∧ 60 < sec) ∧
        x = Alert.pitchImbalance p1 p2 p3 := by
  simp [imbalanceAlerts, mem_ite_single]

theorem mem_evalRules {x : Alert} {w p v p1 p2 p3 tq : ℚ} {gb : Option ℚ} {pm : Int}
    {status : List String} {sec : ℚ} :
    x ∈ evalRules w p v p1 p2 p3 tq gb pm status sec ↔
      x ∈ pitchModeAlerts pm ∨ x ∈ idleBladeAlerts status p1 p2 p3 sec ∨
      x ∈ gearboxAlerts gb ∨ x ∈ overspeedAlerts w p ∨
      (opGate status = true ∧
        (x ∈ falsifiedBrakeAlerts w p sec ∨
         x ∈ windLadderAlerts v p p1 p2 p3 tq sec status ∨
         x ∈ imbalanceAlerts p1 p2 p3 sec)) := by
  simp [evalRules, List.mem_append, mem_ite_list, and_or_left]

/-- Every alert produced by the wind-speed ladder belongs to the band that
first matches the wind speed in the order cut-out, rated, cut-in, normal. -/
theorem alertBand_of_mem_windLadder {x : Alert} {v p p1 p2 p3 tq sec : ℚ}
    {status : List String} (h : x ∈ windLadderAlerts v p p1 p2 p3 tq sec status) :
    alertBand x = some (specFirstBand v) := by
  simp only [windLadderAlerts, v_cut_out, v_rated, v_cut_in] at h
  by_cases h1 : (25:ℚ) ≤ v ∧ 60 < sec
  · rw [if_pos h1] at h
    simp only [List.mem_singleton] at h
    subst h
    simp [alertBand, specFirstBand, h1.1]
  · rw [if_neg h1] at h
    by_cases h2 : (11:ℚ) ≤ v ∧ 60 < sec
    · rw [if_pos h2] at h
      have hv25 : ¬ (25:ℚ) ≤ v := fun hc => h1 ⟨hc, h2.2⟩
      simp only [List.mem_append, mem_ite_single, or_assoc] at h
      rcases h with ⟨-, rfl⟩ | ⟨-, rfl⟩ | ⟨-, rfl⟩ <;>
        simp [alertBand, specFirstBand, hv25, h2.1]
    · rw [if_neg h2] at h
      by_cases h3 : v < 3.5
      · rw [if_pos h3] at h
        simp only [mem_ite_single] at h
        obtain ⟨-, rfl⟩ := h
        have h3' : v < 7/2 := by rw [show ((7:ℚ)/2) = 3.5 by norm_num]; exact h3
        have hv25 : ¬ (25:ℚ) ≤ v := by intro hc; linarith
        have hv11 : ¬ (11:ℚ) ≤ v := by intro hc; linarith
        simp [alertBand, specFirstBand, hv25, hv11, h3]
      · rw [if_neg h3] at h
        by_cases h4 : v < 11
        · rw [if_pos h4] at h
          simp only [List.mem_append, mem_ite_single, or_assoc] at h
          have hv25 : ¬ (25:ℚ) ≤ v := by intro hc; linarith
          have hv11 : ¬ (11:ℚ) ≤ v := by intro hc; linarith
          rcases h with ⟨-, rfl⟩ | ⟨-, rfl⟩ | ⟨-, rfl⟩ <;>
            simp [alertBand, specFirstBand, hv25, hv11, h3]
        · rw [if_neg h4] at h
          simp at h

theorem falsifiedData_not_mem_windLadder {a b : ℚ} {v p p1 p2 p3 tq sec : ℚ}
    {status : List String} :
    Alert.falsifiedData a b ∉ windLadderAlerts v p p1 p2 p3 tq sec status := by
  intro h
  simpa [alertBand] using alertBand_of_mem_windLadder h

theorem brakeFailure_not_mem_windLadder {a b : ℚ} {v p p1 p2 p3 tq sec : ℚ}
    {status : List String} :
    Alert.brakeFailure a b ∉ windLadderAlerts v p p1 p2 p3 tq sec status := by
  intro h
  simpa [alertBand] using alertBand_of_mem_windLadder h

theorem highGearboxTemp_not_mem_windLadder {t : ℚ} {v p p1 p2 p3 tq sec : ℚ}
    {status : List String} :
    Alert.highGearboxTemp t ∉ windLadderAlerts v p p1 p2 p3 tq sec status := by
  intro h
  simpa [alertBand] using alertBand_of_mem_windLadder h

/-! ## Structural lemmas for `checkData` -/

theorem checkData_eq_error_of_missing {offline : Bool} {now : ℚ} {d : TurbineData}
    {s0 : RegimeState} (hm : getMandatory d = none) :
    checkData offline now d s0 = ({ s0 with lastCheckTime := now }, Except.error ()) := by
  simp [checkData, hm]

theorem checkData_eq_error_of_noPitchMode {offline : Bool} {now : ℚ} {d : TurbineData}
    {s0 : RegimeState} {w p q v a b c tq : ℚ} {st : List String}
    (hm : getMandatory d = some (w, p, q, v, a, b, c, tq, st))
    (hpm : d.pitchMode = none) :
    checkData offline now d s0 =
      (updateRegime p (if offline then 1 else now - s0.lastCheckTime)
          { s0 with lastCheckTime := now },
        Except.error ()) := by
  simp [checkData, hm, hpm]

theorem checkData_eq_ok {offline : Bool} {now : ℚ} {d : TurbineData}
    {s0 : RegimeState} {w p q v a b c tq : ℚ} {st : List String} {pm : Int}
    (hm : getMandatory d = some (w, p, q, v, a, b, c, tq, st))
    (hpm : d.pitchMode = some pm) :
    checkData offline now d s0 =
      (updateRegime p (if offline then 1 else now - s0.lastCheckTime)
          { s0 with lastCheckTime := now },
        Except.ok (evalRules w p v a b c tq d.gearboxTemp pm st
          (updateRegime p (if offline then 1 else now - s0.lastCheckTime)
            { s0 with lastCheckTime := now }).secPowered)) := by
  simp [checkData, hm, hpm]

theorem checkData_ok_inv {offline : Bool} {now : ℚ} {d : TurbineData}
    {s0 : RegimeState} {l : List Alert}
    (h : (checkData offline now d s0).2 = Except.ok l) :
    ∃ w p q v a b c tq st pm,
      getMandatory d = some (w, p, q, v, a, b, c, tq, st) ∧ d.pitchMode = some pm ∧
      l = evalRules w p v a b c tq d.gearboxTemp pm st
            (updateRegime p (if offline then 1 else now - s0.lastCheckTime)
              { s0 with lastCheckTime := now }).secPowered := by
  rcases hm : getMandatory d with _ | ⟨w, p, q, v, a, b, c, tq, st⟩
  · rw [checkData_eq_error_of_missing hm] at h
    simp at h
  · rcases hpm : d.pitchMode with _ | pm
    · rw [checkData_eq_error_of_noPitchMode hm hpm] at h
      simp at h
    · rw [checkData_eq_ok hm hpm] at h
      refine ⟨w, p, q, v, a, b, c, tq, st, pm, rfl, rfl, ?_⟩
      exact (Except.ok.inj h).symm

/-! ## Helper lemmas about the regime update -/

theorem bitTest_eq_testBit (n k : Nat) :
    (n &&& (1 <<< k) == 1 <<< k) = n.testBit k := by
  cases h : n.testBit k <;>
    simp [Nat.one_shiftLeft, Nat.and_two_pow, h, (Nat.two_pow_pos k).ne]

theorem updateRegime_powered {p : ℚ} (e : ℚ) (s : RegimeState) (h : 100 < p) :
    updateRegime p e s = ⟨s.secPowered + e, 0, s.lastCheckTime⟩ := by
  have hc : (0:ℚ) + p_tol < p := by rw [p_tol]; linarith
  rw [updateRegime, if_pos hc]

theorem updateRegime_idle {p : ℚ} (e : ℚ) (s : RegimeState) (h : p ≤ 100) :
    updateRegime p e s = ⟨0, s.secIdle + e, s.lastCheckTime⟩ := by
  have hc : ¬ ((0:ℚ) + p_tol < p) := by rw [p_tol]; intro hcc; linarith
  rw [updateRegime, if_neg hc]

theorem updateRegime_lastCheckTime (p e : ℚ) (s : RegimeState) :
    (updateRegime p e s).lastCheckTime = s.lastCheckTime := by
  rw [updateRegime]
  split <;> rfl

theorem updateRegime_zero_fix (p e : ℚ) (s : RegimeState) :
    updateRegime p 0 (updateRegime p e s) = updateRegime p e s := by
  by_cases hp : (0:ℚ) + p_tol < p
  · simp only [updateRegime, if_pos hp]
    simp
  · simp only [updateRegime, if_neg hp]
    simp

theorem withLast_eq_self {s : RegimeState} {t : ℚ} (h : s.lastCheckTime = t) :
    { s with lastCheckTime := t } = s := by
  cases s
  subst h
  rfl

theorem evalRules_gb_congr {w p v p1 p2 p3 tq : ℚ} {pm : Int} {status : List String}
    {sec : ℚ} {g1 g2 : Option ℚ} (h : gearboxAlerts g1 = gearboxAlerts g2) :
    evalRules w p v p1 p2 p3 tq g1 pm status sec =
      evalRules w p v p1 p2 p3 tq g2 pm status sec := by
  simp only [evalRules, h]

theorem getMandatory_some_inv {d : TurbineData} {w p q v a b c tq : ℚ} {st : List String}
    (h : getMandatory d = some (w, p, q, v, a, b, c, tq, st)) :
    d.rotorSpeed = some w ∧ d.activePower = some p ∧ d.reactivePower = some q ∧
    d.windSpeed = some v ∧ d.bladePitch1 = some a ∧ d.bladePitch2 = some b ∧
    d.bladePitch3 = some c ∧ d.torque = some tq ∧ d.turbineStatus = some st := by
  unfold getMandatory at h
  rcases h1 : d.rotorSpeed with _ | x1 <;> rw [h1] at h <;>
    rcases h2 : d.activePower with _ | x2 <;> rw [h2] at h <;>
    rcases h3 : d.reactivePower with _ | x3 <;> rw [h3] at h <;>
    rcases h4 : d.windSpeed with _ | x4 <;> rw [h4] at h <;>
    rcases h5 : d.bladePitch1 with _ | x5 <;> rw [h5] at h <;>
    rcases h6 : d.bladePitch2 with _ | x6 <;> rw [h6] at h <;>
    rcases h7 : d.bladePitch3 with _ | x7 <;> rw [h7] at h <;>
    rcases h8 : d.torque with _ | x8 <;> rw [h8] at h <;>
    rcases h9 : d.turbineStatus with _ | x9 <;> rw [h9] at h <;>
    simp_all

theorem getMandatory_none_of_field_none {d : TurbineData}
    (h : d.rotorSpeed = none ∨ d.activePower = none ∨ d.bladePitch1 = none ∨
      d.bladePitch2 = none ∨ d.bladePitch3 = none ∨ d.torque = none ∨
      d.turbineStatus = none) :
    getMandatory d = none := by
  rcases hm : getMandatory d with _ | ⟨w, p, q, v, a, b, c, tq, st⟩
  · rfl
  · exfalso
    obtain ⟨h1, h2, -, -, h5, h6, h7, h8, h9⟩ := getMandatory_some_inv hm
    rcases h with h | h | h | h | h | h | h <;> simp_all

/-! ## Claim theorems -/

/-- C5: for every status bitfield, the decoded condition list contains
exactly the table names whose bit (0 through 15) is set; decoding 0 gives
the empty list, decoding 0b11 gives Turbine OK and Turbine with Grid
Connection, and bits above 15 never affect the result. -/
theorem decodeStatus_spec :
    (∀ (n i : Nat) (name : String), (i, name) ∈ statusBitNames →
        (name ∈ decodeStatus n ↔ n.testBit i)) ∧
    decodeStatus 0 = [] ∧
    decodeStatus 3 = ["Turbine OK", "Turbine with Grid Connection"] ∧
    (∀ n : Nat, decodeStatus n = decodeStatus (n % 2 ^ 16)) := by
  refine ⟨?_, by decide, by decide, ?_⟩
  · intro n i name hmem
    fin_cases hmem <;>
      (simp only [decodeStatus, bitTest_eq_testBit]
       simp [List.mem_append, mem_ite_single])
  · intro n
    have h : ∀ i, i < 16 → (n % 2 ^ 16).testBit i = n.testBit i := by
      intro i hi
      rw [Nat.testBit_mod_two_pow]
      simp [hi]
    simp only [decodeStatus, bitTest_eq_testBit]
    rw [h 0 (by norm_num), h 1 (by norm_num), h 2 (by norm_num), h 3 (by norm_num),
        h 4 (by norm_num), h 5 (by norm_num), h 6 (by norm_num), h 7 (by norm_num),
        h 8 (by norm_num), h 9 (by norm_num), h 10 (by norm_num), h 11 (by norm_num),
        h 12 (by norm_num), h 13 (by norm_num), h 14 (by norm_num), h 15 (by norm_num)]

/-- Witness for C5 at a concrete bitfield: bit 1 of 0b11 is set and the
grid-connection name is decoded. -/
theorem decodeStatus_spec_witness :
    ((1, "Turbine with Grid Connection") ∈ statusBitNames) ∧
    ("Turbine with Grid Connection" ∈ decodeStatus 3 ↔ Nat.testBit 3 1) :=
  ⟨by decide, decodeStatus_spec.1 3 1 "Turbine with Grid Connection" (by decide)⟩

/-- C6: a regime update with power above 100 adds the elapsed increment to
secondsPowered and zeroes secondsIdle, a power at most 100 does the
opposite; in offline (batch) mode `check_data` uses the fixed increment 1;
five 1-second updates at power 200 from (0,0) give (5,0), and one further
update at power 0 gives (0,1). -/
theorem regime_update_spec :
    (∀ (s : RegimeState) (e p : ℚ), 100 < p →
        updateRegime p e s = ⟨s.secPowered + e, 0, s.lastCheckTime⟩) ∧
    (∀ (s : RegimeState) (e p : ℚ), p ≤ 100 →
        updateRegime p e s = ⟨0, s.secIdle + e, s.lastCheckTime⟩) ∧
    (∀ (now : ℚ) (d : TurbineData) (s : RegimeState) (w p q v a b c tq : ℚ)
        (st : List String), getMandatory d = some (w, p, q, v, a, b, c, tq, st) →
        (checkData true now d s).1 = updateRegime p 1 { s with lastCheckTime := now }) ∧
    updateRegime 200 1 (updateRegime 200 1 (updateRegime 200 1 (updateRegime 200 1
      (updateRegime 200 1 ⟨0, 0, 0⟩)))) = ⟨5, 0, 0⟩ ∧
    updateRegime 0 1 ⟨5, 0, 0⟩ = ⟨0, 1, 0⟩ := by
  refine ⟨fun s e p h => updateRegime_powered e s h,
          fun s e p h => updateRegime_idle e s h, ?_, ?_, ?_⟩
  · intro now d s w p q v a b c tq st hm
    rcases hpm : d.pitchMode with _ | pm
    · rw [checkData_eq_error_of_noPitchMode hm hpm]
      rfl
    · rw [checkData_eq_ok hm hpm]
      rfl
  · norm_num [updateRegime, p_tol]
  · norm_num [updateRegime, p_tol]

/-- Witness for C6 at a concrete state and power. -/
theorem regime_update_spec_witness :
    (100:ℚ) < 200 ∧ updateRegime 200 2 ⟨3, 0, 1⟩ = ⟨5, 0, 1⟩ := by
  refine ⟨by norm_num, ?_⟩
  rw [regime_update_spec.1 ⟨3, 0, 1⟩ 2 200 (by norm_num)]
  norm_num

/-- C7: the mutual-exclusion invariant (a positive counter forces the other
to zero, both nonnegative) holds in the initial state (0,0) and is preserved
by every regime update with nonnegative elapsed increment. -/
theorem regime_invariant :
    (∀ t : ℚ, RegimeInv ⟨0, 0, t⟩) ∧
    (∀ (s : RegimeState) (p e : ℚ), 0 ≤ e → RegimeInv s →
        RegimeInv (updateRegime p e s)) := by
  constructor
  · intro t
    exact ⟨le_refl 0, le_refl 0, fun h => absurd h (lt_irrefl 0),
           fun h => absurd h (lt_irrefl 0)⟩
  · intro s p e he hs
    by_cases hp : (100:ℚ) < p
    · rw [updateRegime_powered e s hp]
      exact ⟨add_nonneg hs.1 he, le_refl 0, fun _ => rfl,
             fun h => absurd h (lt_irrefl 0)⟩
    · push_neg at hp
      rw [updateRegime_idle e s hp]
      exact ⟨le_refl 0, add_nonneg hs.2.1 he,
             fun h => absurd h (lt_irrefl 0), fun _ => rfl⟩

/-- Witness for C7: the invariant after one concrete update from the
initial state. -/
theorem regime_invariant_witness : RegimeInv (updateRegime 5 2 ⟨0, 0, 0⟩) :=
  regime_invariant.2 ⟨0, 0, 0⟩ 5 2 (by norm_num) (regime_invariant.1 0)

/-- C2: within the operational block (its guard true), the Falsified Data
alert is in the result iff rotorSpeed > 10, activePower > 100 and
secondsPowered > 60, and the Brake Failure alert is in the result iff
rotorSpeed > 12 with the same power and duration conjuncts. -/
theorem falsified_brake_thresholds :
    ∀ (w p v p1 p2 p3 tq : ℚ) (gb : Option ℚ) (pm : Int) (status : List String) (sec : ℚ),
      opGate status = true →
      ((Alert.falsifiedData w p ∈ evalRules w p v p1 p2 p3 tq gb pm status sec) ↔
        (10 < w ∧ 100 < p ∧ 60 < sec)) ∧
      ((Alert.brakeFailure w p ∈ evalRules w p v p1 p2 p3 tq gb pm status sec) ↔
        (12 < w ∧ 100 < p ∧ 60 < sec)) := by
  intro w p v p1 p2 p3 tq gb pm status sec hg
  constructor
  · rw [mem_evalRules]
    simp only [mem_pitchModeAlerts, mem_idleBladeAlerts, mem_gearboxAlerts,
      mem_overspeedAlerts, mem_falsifiedBrakeAlerts, mem_imbalanceAlerts, hg]
    simp [falsifiedData_not_mem_windLadder, torque_rated, torque_tol, p_tol]
    norm_num
  · rw [mem_evalRules]
    simp only [mem_pitchModeAlerts, mem_idleBladeAlerts, mem_gearboxAlerts,
      mem_overspeedAlerts, mem_falsifiedBrakeAlerts, mem_imbalanceAlerts, hg]
    simp [brakeFailure_not_mem_windLadder, torque_rated, torque_tol, p_tol]
    norm_num

/-- Witness for C2 at a concrete snapshot inside the operational block. -/
theorem falsified_brake_thresholds_witness :
    opGate ["Turbine OK"] = true ∧
    (Alert.falsifiedData 15 200 ∈ evalRules 15 200 7 0 0 0 5 none 0 ["Turbine OK"] 101 ↔
      ((10:ℚ) < 15 ∧ (100:ℚ) < 200 ∧ (60:ℚ) < 101)) :=
  ⟨rfl, (falsified_brake_thresholds 15 200 7 0 0 0 5 none 0 ["Turbine OK"] 101 rfl).1⟩

/-- C8: every alert of the rule evaluation that belongs to a wind-speed band
belongs to the band first matching the wind speed in the order cut-out
(25 or more), rated (11 or more), cut-in (below 3.5), normal; hence at most
one band contributes alerts. -/
theorem wind_band_exclusive :
    ∀ (w p v p1 p2 p3 tq : ℚ) (gb : Option ℚ) (pm : Int) (status : List String)
      (sec : ℚ) (x : Alert) (b : WindBand),
      x ∈ evalRules w p v p1 p2 p3 tq gb pm status sec →
      alertBand x = some b →
      b = specFirstBand v := by
  intro w p v p1 p2 p3 tq gb pm status sec x b hx hb
  rw [mem_evalRules] at hx
  rcases hx with hx | hx | hx | hx | ⟨-, hx | hx | hx⟩
  · rw [mem_pitchModeAlerts] at hx
    obtain ⟨-, rfl⟩ := hx
    simp [alertBand] at hb
  · rw [mem_idleBladeAlerts] at hx
    obtain ⟨-, rfl⟩ := hx
    simp [alertBand] at hb
  · rw [mem_gearboxAlerts] at hx
    obtain ⟨t, -, -, rfl⟩ := hx
    simp [alertBand] at hb
  · rw [mem_overspeedAlerts] at hx
    obtain ⟨-, rfl⟩ := hx
    simp [alertBand] at hb
  · rw [mem_falsifiedBrakeAlerts] at hx
    rcases hx with ⟨-, rfl⟩ | ⟨-, rfl⟩ <;> simp [alertBand] at hb
  · rw [alertBand_of_mem_windLadder hx] at hb
    exact (Option.some.inj hb).symm
  · rw [mem_imbalanceAlerts] at hx
    obtain ⟨-, rfl⟩ := hx
    simp [alertBand] at hb

/-- Witness for C8: with wind speed 26 the cut-out alert is produced and its
band is the first matching band. -/
theorem wind_band_exclusive_witness :
    Alert.aboveCutOut 26 ∈ evalRules 15 200 26 0 0 0 5 none 0 ["Turbine OK"] 101 ∧
    WindBand.cutOut = specFirstBand 26 := by
  have hmem : Alert.aboveCutOut 26 ∈ evalRules 15 200 26 0 0 0 5 none 0 ["Turbine OK"] 101 := by
    norm_num [evalRules, pitchModeAlerts, idleBladeAlerts, gearboxAlerts, overspeedAlerts,
      opGate, turbineOkFlag, turbineEStopFlag, falsifiedBrakeAlerts, windLadderAlerts,
      imbalanceAlerts, v_cut_out, v_rated, v_cut_in, p_rated, torque_rated, w_max_rated,
      blade_angle_tol, p_tol, torque_tol, w_tol, temp_gearbox_bearing_max]
  exact ⟨hmem, wind_band_exclusive 15 200 26 0 0 0 5 none 0 ["Turbine OK"] 101
    (Alert.aboveCutOut 26) WindBand.cutOut hmem rfl⟩

/-- C10: every alert list returned by `check_data` that contains a Brake
Failure alert also contains the Falsified Data alert with the same payload,
because the brake-failure antecedent strictly implies the falsified-data
antecedent. -/
theorem brake_implies_falsified :
    ∀ (offline : Bool) (now : ℚ) (d : TurbineData) (s : RegimeState)
      (l : List Alert) (w p : ℚ),
      (checkData offline now d s).2 = Except.ok l →
      Alert.brakeFailure w p ∈ l → Alert.falsifiedData w p ∈ l := by
  intro offline now d s l w p hok hb
  obtain ⟨w0, p0, q, v, a, b, c, tq, st, pm, hm, hpm, rfl⟩ := checkData_ok_inv hok
  rw [mem_evalRules] at hb ⊢
  rcases hb with hb | hb | hb | hb | ⟨hg, hb | hb | hb⟩
  · rw [mem_pitchModeAlerts] at hb
    simp at hb
  · rw [mem_idleBladeAlerts] at hb
    simp at hb
  · rw [mem_gearboxAlerts] at hb
    simp at hb
  · rw [mem_overspeedAlerts] at hb
    simp at hb
  · rw [mem_falsifiedBrakeAlerts] at hb
    rcases hb with ⟨-, heq⟩ | ⟨hcond, heq⟩
    · simp at heq
    · injection heq with h1 h2
      subst h1
      subst h2
      refine Or.inr (Or.inr (Or.inr (Or.inr ⟨hg, Or.inl ?_⟩)))
      rw [mem_falsifiedBrakeAlerts]
      refine Or.inl ⟨⟨?_, hcond.2.1, hcond.2.2⟩, rfl⟩
      have h12 : torque_rated + torque_tol < w := hcond.1
      rw [torque_rated, torque_tol] at h12 ⊢
      linarith
  · exact absurd hb brakeFailure_not_mem_windLadder
  · rw [mem_imbalanceAlerts] at hb
    simp at hb

/-- Witness for C10 at a concrete run producing both alerts. -/
theorem brake_implies_falsified_witness :
    ∃ l, (checkData true 0 dOk ⟨100, 0, 0⟩).2 = Except.ok l ∧
      Alert.brakeFailure 15 200 ∈ l ∧ Alert.falsifiedData 15 200 ∈ l := by
  have hok : (checkData true 0 dOk ⟨100, 0, 0⟩).2 =
      Except.ok [Alert.falsifiedData 15 200, Alert.brakeFailure 15 200] := by
    norm_num [checkData, dOk, getMandatory, evalRules, pitchModeAlerts, idleBladeAlerts,
      gearboxAlerts, overspeedAlerts, opGate, turbineOkFlag, turbineEStopFlag,
      falsifiedBrakeAlerts, windLadderAlerts, imbalanceAlerts, updateRegime,
      v_cut_out, v_rated, v_cut_in, p_rated, torque_rated, w_max_rated,
      blade_angle_tol, p_tol, torque_tol, w_tol, temp_gearbox_bearing_max]
  refine ⟨_, hok, by simp, ?_⟩
  exact brake_implies_falsified true 0 dOk ⟨100, 0, 0⟩ _ 15 200 hok (by simp)

/-- C1 (evaluation at the failing input): with Emergency STOP the only
decoded status, `check_data` still evaluates the operational block and
returns the Falsified Data and Brake Failure alerts, because `turbine_e_stop`
is initialised to False and never set, while the Emergency STOP branch
forces `turbine_ok` to True. -/
theorem emergency_stop_operational_alerts :
    (checkData true 0 dEStop ⟨100, 0, 0⟩).2 =
      Except.ok [Alert.falsifiedData 15 200, Alert.brakeFailure 15 200] := by
  norm_num [checkData, dEStop, getMandatory, evalRules, pitchModeAlerts, idleBladeAlerts,
    gearboxAlerts, overspeedAlerts, opGate, turbineOkFlag, turbineEStopFlag,
    falsifiedBrakeAlerts, windLadderAlerts, imbalanceAlerts, updateRegime,
    v_cut_out, v_rated, v_cut_in, p_rated, torque_rated, w_max_rated,
    blade_angle_tol, p_tol, torque_tol, w_tol, temp_gearbox_bearing_max]

/-- C3 counterexample: two successive offline calls of `check_data` with the
same snapshot and status (only the calls themselves mutating the regime
counters) return different alert lists, because each call advances the
counters and the 60-second debounce is crossed between the calls: from
secondsPowered 59 the first call sees 60 and returns no alert, the second
sees 61 and returns the falsified-data and brake-failure alerts. -/
theorem checkData_calls_differ :
    checkData true 0 dOk ⟨59, 0, 0⟩ = (⟨60, 0, 0⟩, Except.ok []) ∧
    (checkData true 0 dOk ⟨60, 0, 0⟩).2 =
      Except.ok [Alert.falsifiedData 15 200, Alert.brakeFailure 15 200] ∧
    (Except.ok ([] : List Alert) : Except Unit (List Alert)) ≠
      Except.ok [Alert.falsifiedData 15 200, Alert.brakeFailure 15 200] := by
  refine ⟨?_, ?_, by simp⟩ <;>
    norm_num [checkData, dOk, getMandatory, evalRules, pitchModeAlerts, idleBladeAlerts,
      gearboxAlerts, overspeedAlerts, opGate, turbineOkFlag, turbineEStopFlag,
      falsifiedBrakeAlerts, windLadderAlerts, imbalanceAlerts, updateRegime,
      v_cut_out, v_rated, v_cut_in, p_rated, torque_rated, w_max_rated,
      blade_angle_tol, p_tol, torque_tol, w_tol, temp_gearbox_bearing_max]

/-- C3 amended: rule evaluation is deterministic in snapshot, status and
regime counters, so two successive calls return identical alert lists
whenever the first call leaves the counters unchanged; in live mode this is
the case when the second call observes the same wall-clock time, since the
elapsed increment is then zero. -/
theorem checkData_second_call_same_time :
    ∀ (now : ℚ) (d : TurbineData) (s : RegimeState),
      (checkData false now d ((checkData false now d s).1)).2 =
        (checkData false now d s).2 := by
  intro now d s
  rcases hm : getMandatory d with _ | ⟨w, p, q, v, a, b, c, tq, st⟩
  · simp only [checkData_eq_error_of_missing hm]
  · rcases hpm : d.pitchMode with _ | pm
    · simp only [checkData_eq_error_of_noPitchMode hm hpm]
    · simp only [checkData_eq_ok hm hpm, Bool.false_eq_true, if_false]
      have hl : (updateRegime p (now - s.lastCheckTime)
          { s with lastCheckTime := now }).lastCheckTime = now :=
        updateRegime_lastCheckTime p (now - s.lastCheckTime) { s with lastCheckTime := now }
      simp only [withLast_eq_self hl, hl, sub_self, updateRegime_zero_fix]

/-- C4 counterexample: with every mandatory field present except the pitch
mode, `check_data` fails, but the resulting regime state is not the initial
one: the counters were already updated and `last_check_time` advanced. -/
theorem checkData_failure_mutates_state :
    checkData true 5 dNoPitchMode ⟨0, 0, 0⟩ = (⟨1, 0, 5⟩, Except.error ()) ∧
    ((⟨1, 0, 5⟩ : RegimeState) ≠ ⟨0, 0, 0⟩) := by
  constructor
  · norm_num [checkData, dNoPitchMode, getMandatory, updateRegime, p_tol]
  · intro hc
    rw [RegimeState.mk.injEq] at hc
    norm_num at hc

/-- C4 amended: when a mandatory field read before the regime update (rotor
speed, active power, reactive power, wind speed, a blade pitch, torque, or
turbine status) is absent, `check_data` fails with an error, leaves
secondsPowered and secondsIdle exactly as they were, and advances
lastCheckTime to the current time; a missing pitch mode also fails the call,
but only after the duration counters have been updated. -/
theorem checkData_missing_mandatory_state :
    ∀ (offline : Bool) (now : ℚ) (d : TurbineData) (s : RegimeState),
      (getMandatory d = none →
        checkData offline now d s = ({ s with lastCheckTime := now }, Except.error ())) ∧
      (∀ (w p q v a b c tq : ℚ) (st : List String),
        getMandatory d = some (w, p, q, v, a, b, c, tq, st) → d.pitchMode = none →
        checkData offline now d s =
          (updateRegime p (if offline then 1 else now - s.lastCheckTime)
            { s with lastCheckTime := now }, Except.error ())) :=
  fun _ _ _ _ =>
    ⟨fun hm => checkData_eq_error_of_missing hm,
     fun _ _ _ _ _ _ _ _ _ hm hpm => checkData_eq_error_of_noPitchMode hm hpm⟩

/-- Witness for C4 (amended) on the empty data dictionary. -/
theorem checkData_missing_mandatory_state_witness :
    checkData true 5 dEmpty ⟨2, 3, 0⟩ = (⟨2, 3, 5⟩, Except.error ()) :=
  (checkData_missing_mandatory_state true 5 dEmpty ⟨2, 3, 0⟩).1 rfl

/-- C9: the gearbox temperature field is optional.  With it absent,
`check_data` succeeds, emits no over-temperature alert, and returns exactly
what it returns with a benign in-range reading present; with it present and
above 60 the over-temperature alert is in the result; while absence of any
of rotor speed, active power, blade pitches, torque, or turbine status makes
the whole call fail. -/
theorem gearbox_optional :
    (∀ (offline : Bool) (now : ℚ) (d : TurbineData) (s : RegimeState)
        (w p q v a b c tq : ℚ) (st : List String) (pm : Int),
        getMandatory d = some (w, p, q, v, a, b, c, tq, st) → d.pitchMode = some pm →
        d.gearboxTemp = none →
        ∃ l, (checkData offline now d s).2 = Except.ok l ∧
          (∀ t, Alert.highGearboxTemp t ∉ l) ∧
          (∀ t0, t0 ≤ 60 →
            checkData offline now { d with gearboxTemp := some t0 } s =
              checkData offline now d s)) ∧
    (∀ (offline : Bool) (now : ℚ) (d : TurbineData) (s : RegimeState)
        (w p q v a b c tq : ℚ) (st : List String) (pm : Int) (t : ℚ),
        getMandatory d = some (w, p, q, v, a, b, c, tq, st) → d.pitchMode = some pm →
        d.gearboxTemp = some t → 60 < t →
        ∃ l, (checkData offline now d s).2 = Except.ok l ∧ Alert.highGearboxTemp t ∈ l) ∧
    (∀ (offline : Bool) (now : ℚ) (d : TurbineData) (s : RegimeState),
        (d.rotorSpeed = none ∨ d.activePower = none ∨ d.bladePitch1 = none ∨
         d.bladePitch2 = none ∨ d.bladePitch3 = none ∨ d.torque = none ∨
         d.turbineStatus = none) →
        (checkData offline now d s).2 = Except.error ()) := by
  refine ⟨?_, ?_, ?_⟩
  · intro offline now d s w p q v a b c tq st pm hm hpm hgb
    rw [checkData_eq_ok hm hpm]
    refine ⟨_, rfl, ?_, ?_⟩
    · intro t hmem
      rw [mem_evalRules] at hmem
      rcases hmem with hx | hx | hx | hx | ⟨-, hx | hx | hx⟩
      · rw [mem_pitchModeAlerts] at hx
        simp at hx
      · rw [mem_idleBladeAlerts] at hx
        simp at hx
      · rw [mem_gearboxAlerts] at hx
        rw [hgb] at hx
        simp at hx
      · rw [mem_overspeedAlerts] at hx
        simp at hx
      · rw [mem_falsifiedBrakeAlerts] at hx
        rcases hx with ⟨-, hx⟩ | ⟨-, hx⟩ <;> simp at hx
      · exact absurd hx highGearboxTemp_not_mem_windLadder
      · rw [mem_imbalanceAlerts] at hx
        simp at hx
    · intro t0 ht0
      have hm' : getMandatory { d with gearboxTemp := some t0 } =
          some (w, p, q, v, a, b, c, tq, st) := hm
      have hpm' : ({ d with gearboxTemp := some t0 } : TurbineData).pitchMode = some pm := hpm
      have h1 : checkData offline now { d with gearboxTemp := some t0 } s =
          (updateRegime p (if offline then 1 else now - s.lastCheckTime)
              { s with lastCheckTime := now },
            Except.ok (evalRules w p v a b c tq (some t0) pm st
              (updateRegime p (if offline then 1 else now - s.lastCheckTime)
                { s with lastCheckTime := now }).secPowered)) := checkData_eq_ok hm' hpm'
      have hgbeq : gearboxAlerts (some t0) = gearboxAlerts (none : Option ℚ) := by
        show (if temp_gearbox_bearing_max < t0 then [Alert.highGearboxTemp t0] else []) = []
        rw [if_neg]
        rw [temp_gearbox_bearing_max]
        exact not_lt.mpr ht0
      exact h1.trans (by rw [hgb, evalRules_gb_congr hgbeq])
  · intro offline now d s w p q v a b c tq st pm t hm hpm hgb ht
    rw [checkData_eq_ok hm hpm]
    refine ⟨_, rfl, ?_⟩
    rw [mem_evalRules]
    refine Or.inr (Or.inr (Or.inl ?_))
    rw [mem_gearboxAlerts]
    refine ⟨t, hgb, ?_, rfl⟩
    rw [temp_gearbox_bearing_max]
    exact ht
  · intro offline now d s h
    rw [checkData_eq_error_of_missing (getMandatory_none_of_field_none h)]

/-- Witness for C9 on the Turbine OK snapshot, whose gearbox field is
absent. -/
theorem gearbox_optional_witness :
    ∃ l, (checkData true 0 dOk ⟨100, 0, 0⟩).2 = Except.ok l ∧
      (∀ t, Alert.highGearboxTemp t ∉ l) ∧
      (∀ t0, t0 ≤ 60 →
        checkData true 0 { dOk with gearboxTemp := some t0 } ⟨100, 0, 0⟩ =
          checkData true 0 dOk ⟨100, 0, 0⟩) :=
  gearbox_optional.1 true 0 dOk ⟨100, 0, 0⟩ 15 200 0 7 0 0 0 5 ["Turbine OK"] 0 rfl rfl rfl

end WindIDS
